import Mathlib

/-!
Verification of the browser-laptop ledger notification scheduler and
publisher eligibility evaluator.

The development shallowly embeds two JavaScript modules:

* app/common/lib/ledgerUtil.js - pure decision functions over a ledger
  state snapshot (eligibleP, stickyP, blockedP, contributeP, visibleP),
  the media telemetry helpers (getMediaKey, getYouTubeDuration) and the
  wallet status formatter (walletStatus);
* the ledger notification scheduler module (showEnabledNotifications,
  showReviewPublishers, showAddFunds, sufficientBalanceToReconcile,
  shouldShowNotificationReviewPublishers, shouldShowNotificationAddFunds).

Modelling conventions, applied uniformly:

* JavaScript numbers are modelled as exact rationals.  Every concrete
  value appearing in the theorems below is decimal-exact and was checked
  to give the same observable result under IEEE-754 double arithmetic
  (the repository's own unit tests assert the same concrete outputs).
* A possibly-absent value (undefined, null, or NaN produced by numeric
  coercion of an absent value) is an Option; JavaScript comparison
  operators applied to an absent operand yield false, exactly as a
  comparison against NaN does.
* Truthiness of a number is being nonzero; truthiness of an absent value
  is false.
* External state-module getters (ledgerState.getInfoProp,
  ledgerState.getPublisher, ledgerState.getSynopsisOption,
  ledgerState.getPublisherOption, siteSettingsState.getSettingsProp
  composed with urlUtil.getHostPattern, and the global getSetting) are
  embedded as record-field and function-field lookups on an immutable
  snapshot, which is exactly how the modules use them.
-/

/-! ## JavaScript value helpers -/

/-- Floor of a rational as an integer, written with Euclidean division
so that it evaluates by kernel reduction (the denominator is positive). -/
def ratFloor (q : ℚ) : ℤ :=
  q.num.fdiv q.den

/-- Truncation toward zero, the behaviour of JavaScript parseInt applied
to a finite number; Int.tdiv truncates toward zero and the denominator
is positive. -/
def jsTrunc (q : ℚ) : ℤ :=
  q.num.tdiv q.den

/-- Value of a list of decimal digit characters read left to right. -/
def digitsVal (cs : List Char) : ℕ :=
  cs.foldl (fun a c => a * 10 + (c.toNat - 48)) 0

/-- Model of JavaScript parseFloat on a decimal literal: an optional
sign, an integer part and an optional fractional part are read as a
prefix of the string; none models NaN (no digit could be read).
Exponent suffixes, which never occur in the telemetry payloads this
model is used on, are not read (they would simply be ignored prefixes
here). -/
def jsParseFloat (s : String) : Option ℚ :=
  let cs := s.toList
  let signAndRest : Bool × List Char :=
    match cs with
    | '-' :: rest => (true, rest)
    | '+' :: rest => (false, rest)
    | _ => (false, cs)
  let neg := signAndRest.1
  let body := signAndRest.2
  let intPart := body.takeWhile Char.isDigit
  let afterInt := body.dropWhile Char.isDigit
  let fracPart :=
    match afterInt with
    | '.' :: r => r.takeWhile Char.isDigit
    | _ => []
  if intPart.isEmpty && fracPart.isEmpty then
    none
  else
    let v : ℚ := (digitsVal intPart : ℚ) + (digitsVal fracPart : ℚ) / (10 ^ fracPart.length)
    some (if neg then -v else v)

/-- Model of JavaScript ToNumber on a string (the coercion used by the
relational operators when one operand is a string): the whole string
must be a decimal literal, an empty string is 0, and anything else is
NaN (none).  Exponent forms are not needed by this development. -/
def jsToNumber (s : String) : Option ℚ :=
  let cs := s.toList
  if cs.isEmpty then
    some 0
  else
    let signAndRest : Bool × List Char :=
      match cs with
      | '-' :: rest => (true, rest)
      | '+' :: rest => (false, rest)
      | _ => (false, cs)
    let neg := signAndRest.1
    let body := signAndRest.2
    let intPart := body.takeWhile Char.isDigit
    let afterInt := body.dropWhile Char.isDigit
    let fracAndRest : List Char × List Char :=
      match afterInt with
      | '.' :: r => (r.takeWhile Char.isDigit, r.dropWhile Char.isDigit)
      | other => ([], other)
    let fracPart := fracAndRest.1
    let leftover := fracAndRest.2
    if (intPart.isEmpty && fracPart.isEmpty) || !leftover.isEmpty then
      none
    else
      let v : ℚ := (digitsVal intPart : ℚ) + (digitsVal fracPart : ℚ) / (10 ^ fracPart.length)
      some (if neg then -v else v)

/-- Two-digit zero-padded rendering of a natural below 100. -/
def pad2 (n : ℕ) : String :=
  if n < 10 then "0" ++ toString n else toString n

/-- Model of JavaScript Number.prototype.toFixed(2) on a nonnegative
number: round to the nearest hundredth, ties upward, and render with
exactly two fractional digits.  Only nonnegative inputs occur in this
development; a negative input is rendered with a leading minus sign. -/
def jsToFixed2 (q : ℚ) : String :=
  if q < 0 then
    let n := (ratFloor (-q * 100 + 1 / 2)).toNat
    "-" ++ toString (n / 100) ++ "." ++ pad2 (n % 100)
  else
    let n := (ratFloor (q * 100 + 1 / 2)).toNat
    toString (n / 100) ++ "." ++ pad2 (n % 100)

/-- Smallest number of decimal digits (at most 20) needed to write the
rational exactly, if any. -/
def decimalScale (q : ℚ) : Option ℕ :=
  (List.range 21).find? (fun k => (q * 10 ^ k).den = 1)

/-- Model of JavaScript number-to-string conversion for numbers with a
finite decimal expansion (the only ones this development applies it to):
an integer prints without a decimal point, otherwise the shortest exact
decimal expansion is printed.  A rational with no finite decimal
expansion, which a JavaScript double can never denote, falls back to the
empty string. -/
def jsNumToString (q : ℚ) : String :=
  let sign := if q < 0 then "-" else ""
  let a := |q|
  match decimalScale a with
  | some 0 => sign ++ toString a.num.toNat
  | some k =>
      let n := (a * 10 ^ k).num.toNat
      let intPart := n / 10 ^ k
      let fracDigits := Nat.toDigits 10 (n % 10 ^ k + 10 ^ k)
      sign ++ toString intPart ++ "." ++ String.mk (fracDigits.drop 1)
  | none => ""

/-! ## ledgerUtil.js : media telemetry helpers -/

/-- Splitting a character list at a separator character; the chunk
accumulator is kept reversed.  Written structurally so that it evaluates
by kernel reduction. -/
def splitCharAux (sep : Char) : List Char → List Char → List (List Char)
  | [], acc => [acc.reverse]
  | c :: cs, acc =>
      if c = sep then acc.reverse :: splitCharAux sep cs []
      else splitCharAux sep cs (c :: acc)

/-- Model of JavaScript String.prototype.split with a one-character
separator: splitting the empty string gives one empty chunk, and a
trailing separator produces a trailing empty chunk, as in JavaScript. -/
def jsSplit (sep : Char) (s : String) : List String :=
  (splitCharAux sep s.toList []).map String.mk

/-- Query-string payload of a YouTube watch-time beacon, as consumed by
getYouTubeDuration: the comma-separated segment start and end time
lists.  A missing field is none (undefined). -/
structure YouTubeData where
  st : Option String
  et : Option String

/-- Running sum of end minus start over two parallel segment lists, with
NaN (none) propagation exactly as the JavaScript loop produces it; the
lists are known to have equal length at every call site. -/
def segmentSum : List String → List String → Option ℚ
  | [], _ => some 0
  | _ :: _, [] => none
  | s :: ss, e :: es =>
      match jsParseFloat e, jsParseFloat s, segmentSum ss es with
      | some ev, some sv, some acc => some ((ev - sv) + acc)
      | _, _, _ => none

/-- Embedding of getYouTubeDuration (ledgerUtil.js): split the two
comma-separated lists, return 0 when the payload or either field is
missing or the lists differ in length, otherwise sum the segment widths,
convert seconds to milliseconds and truncate with parseInt.  The none
result models NaN (a segment failed to parse). -/
def getYouTubeDuration (data : Option YouTubeData) : Option ℤ :=
  match data with
  | none => some 0
  | some d =>
      match d.st, d.et with
      | some st, some et =>
          let startTime := jsSplit ',' st
          let endTime := jsSplit ',' et
          if startTime.length ≠ endTime.length then
            some 0
          else
            match segmentSum startTime endTime with
            | some t => some (jsTrunc (t * 1000))
            | none => none
      | _, _ => some 0

/-- Model of String.prototype.toLowerCase restricted to the ASCII range,
written over the character list so that it evaluates by kernel
reduction. -/
def jsToLowerCase (s : String) : String :=
  String.mk (s.toList.map Char.toLower)

/-- Embedding of getMediaKey (ledgerUtil.js): null for a missing id or
type, otherwise the lowercased provider type, an underscore, and the id. -/
def getMediaKey (id type : Option String) : Option String :=
  match id, type with
  | some i, some t => some (jsToLowerCase t ++ "_" ++ i)
  | _, _ => none

/-! ## ledgerUtil.js : publisher eligibility evaluator -/

/-- Publisher record as read through ledgerState.getPublisher and
ledgerState.getPublisherOption: per-scorekeeper scores, accumulated
duration, visit count, and the exclude and verified options.  Absent
entries are none. -/
structure PublisherRecord where
  scores : String → Option ℚ
  duration : Option ℚ
  visits : Option ℚ
  optionExclude : Option Bool
  optionVerified : Option Bool

/-- Synopsis options as read through ledgerState.getSynopsisOption. -/
structure SynopsisOptionsRec where
  scorekeeper : Option String
  minPublisherDuration : Option ℚ
  minPublisherVisits : Option ℚ
  showOnlyVerified : Option Bool

/-- Snapshot of the state the evaluator functions read: the publisher
table (ledgerState.getPublisher returns an empty record for an unknown
key, modelled by total function application), the synopsis options, the
two per-site settings looked up through the host pattern of the
publisher key, and the global PAYMENTS_ALLOW_NON_VERIFIED setting
(getSetting resolves it against the application default, hence Bool). -/
structure LedgerState where
  publishers : String → PublisherRecord
  synopsis : SynopsisOptionsRec
  ledgerPayments : String → Option Bool
  ledgerPaymentsShown : String → Option Bool
  settingAllowNonVerified : Bool

/-- JavaScript comparison x > 0 where x may be absent: a comparison with
undefined (NaN) is false. -/
def jsGtZero (a : Option ℚ) : Bool :=
  match a with
  | some v => decide (0 < v)
  | none => false

/-- JavaScript comparison a >= b where either side may be absent. -/
def jsGe (a b : Option ℚ) : Bool :=
  match a, b with
  | some x, some y => decide (y ≤ x)
  | _, _ => false

/-- Embedding of eligibleP (ledgerUtil.js): the publisher's score under
the configured scorekeeper is strictly positive, and duration and visits
meet the synopsis thresholds. -/
def eligibleP (state : LedgerState) (key : String) : Bool :=
  let publisher := state.publishers key
  jsGtZero (state.synopsis.scorekeeper.bind publisher.scores) &&
  jsGe publisher.duration state.synopsis.minPublisherDuration &&
  jsGe publisher.visits state.synopsis.minPublisherVisits

/-- Embedding of stickyP (ledgerUtil.js): the ledgerPayments site
setting wins when present; otherwise the publisher's exclude option,
inverted, when present; otherwise true.  The final line of the source,
result === undefined or result, returns exactly this resolution. -/
def stickyP (state : LedgerState) (key : String) : Bool :=
  match state.ledgerPayments key with
  | some b => b
  | none =>
      match (state.publishers key).optionExclude with
      | some excluded => !excluded
      | none => true

/-- Embedding of blockedP (ledgerUtil.js): the ledgerPaymentsShown site
setting is strictly equal to false. -/
def blockedP (state : LedgerState) (key : String) : Bool :=
  state.ledgerPaymentsShown key == some false

/-- Embedding of contributeP (ledgerUtil.js). -/
def contributeP (state : LedgerState) (key : String) : Bool :=
  (stickyP state key || !((state.publishers key).optionExclude == some true)) &&
  eligibleP state key &&
  !blockedP state key

/-- Embedding of ledgerState.setSynopsisOption for the showOnlyVerified
option: a functional update of the snapshot. -/
def setSynopsisShowOnlyVerified (state : LedgerState) (v : Bool) : LedgerState :=
  { state with synopsis := { state.synopsis with showOnlyVerified := some v } }

/-- Embedding of visibleP (ledgerUtil.js).  When the showOnlyVerified
synopsis option is unset it is derived from the
PAYMENTS_ALLOW_NON_VERIFIED setting and the local variable state is
rebound to the updated snapshot, exactly as in the source; the
subsequent reads go through the rebound snapshot. -/
def visibleP (state : LedgerState) (key : String) : Bool :=
  let publisher := state.publishers key
  let resolved : Bool × LedgerState :=
    match state.synopsis.showOnlyVerified with
    | some v => (v, state)
    | none =>
        let v := state.settingAllowNonVerified
        (v, setSynopsisShowOnlyVerified state v)
  let showOnlyVerified := resolved.1
  let state' := resolved.2
  let onlyVerified := !showOnlyVerified
  let deletedByUser := blockedP state' key
  let eligibleByStats := eligibleP state' key
  let verifiedPublisher := publisher.optionVerified.getD false
  (eligibleByStats && ((onlyVerified && verifiedPublisher) || !onlyVerified)) && !deletedByUser

/-- Caller-visible outcome of a visibleP call: the boolean result paired
with the state the caller holds afterwards.  In the source the lazy
write-back rebinds the local parameter only: the snapshot is an
immutable value, setSynopsisOption returns a fresh value, and visibleP
returns just the boolean, so the caller's snapshot after the call is the
unchanged input. -/
def visiblePFull (state : LedgerState) (key : String) : Bool × LedgerState :=
  (visibleP state key, state)

/-! ## ledgerUtil.js : walletStatus -/

/-- Status identifiers walletStatus can return. -/
inductive WalletStatusId
  | statusOnError
  | insufficientFundsStatus
  | pendingFundsStatus
  | defaultWalletStatus
  | createdWalletStatus
  | creatingWalletStatus
  | createWalletStatus
deriving DecidableEq

/-- Fields of the ledger data snapshot walletStatus reads.  The error,
created and creating fields are read for truthiness only; transactions
is none when absent, otherwise its size. -/
structure WalletData where
  error : Bool
  created : Bool
  creating : Bool
  transactionsSize : Option ℕ
  unconfirmed : Option ℚ
  balance : Option ℚ
  bat : Option ℚ

/-- Embedding of walletStatus (ledgerUtil.js).  The source computes
pendingFunds as a string (the result of toFixed(2)) and then writes
pendingFunds + Number(balance or 0): the plus is JavaScript string
concatenation, and the relational operator coerces the concatenated
string back to a number (NaN compares false). -/
def walletStatus (d : WalletData) : WalletStatusId :=
  if d.error then .statusOnError
  else if d.created then
    let pendingFunds := jsToFixed2 (d.unconfirmed.getD 0)
    let compared := jsToNumber (pendingFunds ++ jsNumToString (d.balance.getD 0))
    let insufficient :=
      match compared with
      | some v => decide (v < 9 / 10 * d.bat.getD 0)
      | none => false
    if insufficient then .insufficientFundsStatus
    else if jsGtZero (jsToNumber pendingFunds) then .pendingFundsStatus
    else if (match d.transactionsSize with | some n => decide (0 < n) | none => false) then
      .defaultWalletStatus
    else .createdWalletStatus
  else if d.creating then .creatingWalletStatus
  else .createWalletStatus

/-! ## Notification scheduler -/

/-- One day in milliseconds (miliseconds.day in the scheduler module). -/
def day : ℚ := 24 * 60 * 60 * 1000

/-- Cool-down applied when the add-funds notification fires
(nextAddFundsTime in the scheduler module). -/
def nextAddFundsTime : ℚ := 3 * day

/-- Wallet fields the scheduler reads through ledgerState.getInfoProp;
an absent property is none. -/
structure LedgerInfo where
  balance : Option ℚ
  unconfirmed : Option ℚ
  bat : Option ℚ
  reconcileStamp : Option ℚ
  reconcileFrequency : Option ℚ

/-- Embedding of sufficientBalanceToReconcile: bat must be truthy
(present and nonzero) and balance plus unconfirmed must strictly exceed
0.9 times bat. -/
def sufficientBalanceToReconcile (info : LedgerInfo) : Bool :=
  let balance := info.balance.getD 0
  let unconfirmed := info.unconfirmed.getD 0
  match info.bat with
  | none => false
  | some bat => !(decide (bat = 0)) && decide (balance + unconfirmed > 9 / 10 * bat)

/-- Persisted settings the scheduler reads through getSetting and writes
through appActions.changeSetting.  A snooze timestamp is none when the
setting is absent (or holds NaN, which behaves identically: falsy and
incomparable). -/
structure NotifSettings where
  paymentsEnabled : Bool
  paymentsNotifications : Bool
  reconcileSoonTimestamp : Option ℚ
  addFundsTimestamp : Option ℚ
  tryPaymentsDismissed : Bool

/-- Embedding of shouldShowNotificationReviewPublishers: eligible when
the stored timestamp is falsy (absent or zero) or strictly in the past. -/
def shouldShowNotificationReviewPublishers (st : NotifSettings) (now : ℚ) : Bool :=
  match st.reconcileSoonTimestamp with
  | none => true
  | some t => decide (t = 0) || decide (now > t)

/-- Embedding of shouldShowNotificationAddFunds: eligible when the
stored timestamp is falsy (absent or zero) or strictly in the past. -/
def shouldShowNotificationAddFunds (st : NotifSettings) (now : ℚ) : Bool :=
  match st.addFundsTimestamp with
  | none => true
  | some t => decide (t = 0) || decide (now > t)

/-- Notification kinds a scheduler tick can request (identified in the
source by their message text). -/
inductive NotifKind
  | addFunds
  | reconciliation
  | tryPayments
deriving DecidableEq

/-- Observable actions a tick dispatches: the two changeSetting writes
of snooze timestamps and showNotification requests.  The review snooze
value is an Option because reconcileStamp + (reconcileFrequency - 2)
days is NaN when the frequency is absent. -/
inductive LedgerEvent
  | setReconcileSoonTimestamp (t : Option ℚ)
  | setAddFundsTimestamp (t : ℚ)
  | showNotification (kind : NotifKind)
deriving DecidableEq

/-- Embedding of showReviewPublishers: store the snooze timestamp it was
given, then request the reconciliation notification. -/
def showReviewPublishers (nextTime : Option ℚ) : List LedgerEvent :=
  [.setReconcileSoonTimestamp nextTime, .showNotification .reconciliation]

/-- Embedding of showAddFunds: store now plus the three-day cool-down,
then request the add-funds notification. -/
def showAddFunds (now : ℚ) : List LedgerEvent :=
  [.setAddFundsTimestamp (now + nextAddFundsTime), .showNotification .addFunds]

/-- Embedding of showEnabledNotifications, the reconciliation-window
rule run on each tick while payments and notifications are enabled.  The
source reads the clock repeatedly inside one synchronous tick; the model
samples it once as now. -/
def showEnabledNotifications (info : LedgerInfo) (st : NotifSettings) (now : ℚ) :
    List LedgerEvent :=
  match info.reconcileStamp with
  | none => []
  | some reconcileStamp =>
      if reconcileStamp = 0 then []
      else if reconcileStamp - now < day then
        if sufficientBalanceToReconcile info then
          if shouldShowNotificationReviewPublishers st now then
            showReviewPublishers
              (info.reconcileFrequency.map (fun f => reconcileStamp + (f - 2) * day))
          else []
        else if shouldShowNotificationAddFunds st now then
          showAddFunds now
        else []
      else if reconcileStamp - now < 2 * day then
        if sufficientBalanceToReconcile info && shouldShowNotificationReviewPublishers st now then
          showReviewPublishers (some (now + day))
        else []
      else []

/-- Embedding of showDisabledNotifications: while the try-payments
notification is undismissed and the grace delay since first run has
elapsed, request the try-payments notification (it writes no snooze
setting). -/
def showDisabledNotifications (tryPaymentsDismissed : Bool)
    (firstRunTimestamp delayTryPayments now : ℚ) : List LedgerEvent :=
  if !tryPaymentsDismissed then
    if now - firstRunTimestamp < delayTryPayments then []
    else [.showNotification .tryPayments]
  else []

/-- Embedding of onInterval, the body of the polling timer: enabled
payments run the reconciliation-window rule (when notifications are on),
disabled payments run the try-payments upsell. -/
def onInterval (info : LedgerInfo) (st : NotifSettings)
    (firstRunTimestamp delayTryPayments now : ℚ) : List LedgerEvent :=
  if st.paymentsEnabled then
    if st.paymentsNotifications then showEnabledNotifications info st now else []
  else
    showDisabledNotifications st.tryPaymentsDismissed firstRunTimestamp delayTryPayments now

/-- Effect of one dispatched action on the persisted settings. -/
def applyEvent (st : NotifSettings) : LedgerEvent → NotifSettings
  | .setReconcileSoonTimestamp t => { st with reconcileSoonTimestamp := t }
  | .setAddFundsTimestamp t => { st with addFundsTimestamp := some t }
  | .showNotification _ => st

/-- Inputs one tick observes: the wallet snapshot, the first-run
timestamp with the try-payments grace delay, and the clock. -/
structure TickInput where
  info : LedgerInfo
  firstRunTimestamp : ℚ
  delayTryPayments : ℚ
  now : ℚ

/-- Running a sequence of ticks, threading the persisted settings
through the changeSetting writes each tick dispatches, and collecting
every dispatched action. -/
def runTicks (st : NotifSettings) : List TickInput → NotifSettings × List LedgerEvent
  | [] => (st, [])
  | t :: ts =>
      let evs := onInterval t.info st t.firstRunTimestamp t.delayTryPayments t.now
      let st' := evs.foldl applyEvent st
      let rest := runTicks st' ts
      (rest.1, evs ++ rest.2)

/-! ## Concrete sample values used by the witness theorems -/

/-- Score table granting every scorekeeper a positive score. -/
def sampleScores : String → Option ℚ := fun _ => some 1

/-- Publisher with ten milliseconds of duration and three visits. -/
def samplePublisher : PublisherRecord :=
  ⟨sampleScores, some 10, some 3, some false, some true⟩

/-- Publisher with the same scores and strictly larger statistics. -/
def sampleBigger : PublisherRecord :=
  ⟨sampleScores, some 20, some 4, some false, some true⟩

/-- Ledger snapshot whose thresholds samplePublisher meets. -/
def sampleState : LedgerState :=
  { publishers := fun _ => samplePublisher
    synopsis := ⟨some "concave", some 5, some 2, some true⟩
    ledgerPayments := fun _ => none
    ledgerPaymentsShown := fun _ => none
    settingAllowNonVerified := true }

/-- The same snapshot with the showOnlyVerified option unset. -/
def sampleStateUnset : LedgerState :=
  { sampleState with synopsis := ⟨some "concave", some 5, some 2, none⟩ }

/-- Wallet snapshot with ample funds, reconciling at timestamp 1000000
every 30 days. -/
def sampleInfoFunded : LedgerInfo :=
  ⟨some 10, some 0, some 1, some 1000000, some 30⟩

/-- The same wallet snapshot with an empty balance. -/
def sampleInfoBroke : LedgerInfo :=
  ⟨some 0, some 0, some 1, some 1000000, some 30⟩

/-- Enabled settings with no snooze timestamps stored. -/
def sampleSettings : NotifSettings := ⟨true, true, none, none, false⟩

/-- Enabled settings with both snooze timestamps set to 5000000. -/
def sampleSnoozed : NotifSettings := ⟨true, true, some 5000000, some 5000000, false⟩

/-- Tick observed at time 999999, one millisecond before the sample
reconcile stamp. -/
def sampleTick : TickInput := ⟨sampleInfoFunded, 0, 0, 999999⟩

/-- Claim C9 as stated: after a visibleP call on a snapshot whose
showOnlyVerified synopsis option is unset, the caller holds a snapshot
with the option cached from the PAYMENTS_ALLOW_NON_VERIFIED setting. -/
def claimC9Caches : Prop :=
  ∀ (s : LedgerState) (k : String), s.synopsis.showOnlyVerified = none →
    ((visiblePFull s k).2).synopsis.showOnlyVerified = some s.settingAllowNonVerified

/-! ## Theorems -/

/-- C5: getYouTubeDuration sums end minus start over the comma-separated
segment lists, converts seconds to milliseconds and truncates to an
integer; the three-segment payload gives 14762 ms and the one-segment
payload 10001 ms, while lists of different lengths and a null payload
give 0. -/
theorem getYouTubeDuration_spec :
    getYouTubeDuration (some ⟨some "11.338,21.339,25.000", some "21.339,25.000,26.100"⟩) =
      some 14762 ∧
    getYouTubeDuration (some ⟨some "11.338", some "21.339"⟩) = some 10001 ∧
    (∀ st et : String, (jsSplit ',' st).length ≠ (jsSplit ',' et).length →
      getYouTubeDuration (some ⟨some st, some et⟩) = some 0) ∧
    getYouTubeDuration none = some 0 ∧
    (∀ st et : String, (jsSplit ',' st).length = (jsSplit ',' et).length →
      getYouTubeDuration (some ⟨some st, some et⟩) =
        (segmentSum (jsSplit ',' st) (jsSplit ',' et)).map (fun t => jsTrunc (t * 1000))) := by
  refine ⟨by with_unfolding_all rfl, by with_unfolding_all rfl, ?_, rfl, ?_⟩
  · intro st et h
    simp [getYouTubeDuration, h]
  · intro st et h
    simp [getYouTubeDuration, h]
    cases segmentSum (jsSplit ',' st) (jsSplit ',' et) <;> simp

/-- Witness instantiating the quantified parts of the C5 theorem at
concrete payloads. -/
theorem getYouTubeDuration_spec_witness :
    getYouTubeDuration (some ⟨some "1,2", some "3"⟩) = some 0 ∧
    getYouTubeDuration (some ⟨some "1", some "3"⟩) =
      (segmentSum (jsSplit ',' "1") (jsSplit ',' "3")).map (fun t => jsTrunc (t * 1000)) :=
  ⟨getYouTubeDuration_spec.2.2.1 "1,2" "3" (by decide),
   getYouTubeDuration_spec.2.2.2.2 "1" "3" (by decide)⟩

/-- C8 counterexample: the media key joins the lowercased provider type
and the id with an underscore, so the claimed colon-separated form fails
at the repository's own test input. -/
theorem getMediaKey_counterexample :
    getMediaKey (some "kLiLOkzLetE") (some "YouTube") = some "youtube_kLiLOkzLetE" ∧
    getMediaKey (some "kLiLOkzLetE") (some "YouTube") ≠ some "youtube:kLiLOkzLetE" :=
  ⟨by decide, by decide⟩

/-- C8 amended: for a present id and type the media key is the
lowercased provider type, an underscore separator, and the id; a missing
id or type gives null. -/
theorem getMediaKey_spec :
    (∀ i t : String, getMediaKey (some i) (some t) = some (jsToLowerCase t ++ "_" ++ i)) ∧
    (∀ t : Option String, getMediaKey none t = none) ∧
    (∀ i : Option String, getMediaKey i none = none) := by
  refine ⟨fun i t => rfl, fun t => rfl, fun i => ?_⟩
  cases i <;> rfl

/-- C3 counterexample: with bat 10, balance 9 and unconfirmed 0 the
balance plus unconfirmed equals 0.9 times bat exactly, yet the scheduler
judges funds insufficient, because the source comparison is strict. -/
theorem sufficientBalanceToReconcile_counterexample :
    sufficientBalanceToReconcile ⟨some 9, some 0, some 10, none, none⟩ = false ∧
    (9 : ℚ) + 0 ≥ 9 / 10 * 10 := by
  constructor
  · with_unfolding_all rfl
  · norm_num

/-- C3 amended: funds are judged sufficient iff the contribution target
bat is present and nonzero and balance plus unconfirmed strictly exceeds
0.9 times bat; exact equality with the 90 percent threshold is
insufficient. -/
theorem sufficientBalanceToReconcile_iff (info : LedgerInfo) :
    sufficientBalanceToReconcile info = true ↔
      ∃ b : ℚ, info.bat = some b ∧ b ≠ 0 ∧
        info.balance.getD 0 + info.unconfirmed.getD 0 > 9 / 10 * b := by
  cases hb : info.bat <;> simp [sufficientBalanceToReconcile, hb]

/-- C10: walletStatus builds the pending-funds value with toFixed(2) and
joins it to the balance with the JavaScript plus, which concatenates
strings rather than adding: for every created, error-free wallet with
unconfirmed 0, balance 5 and bat 1 the compared value is Number of the
string 0.005, so the status is insufficientFundsStatus even though
5 + 0 is at least 0.9 times 1. -/
theorem walletStatus_concatenation (d : WalletData)
    (he : d.error = false) (hc : d.created = true)
    (hu : d.unconfirmed = some 0) (hb : d.balance = some 5) (hbat : d.bat = some 1) :
    walletStatus d = WalletStatusId.insufficientFundsStatus ∧
    jsToNumber (jsToFixed2 0 ++ jsNumToString 5) = some (1 / 200) ∧
    (5 : ℚ) + 0 ≥ 9 / 10 * 1 := by
  have hval : jsToNumber (jsToFixed2 0 ++ jsNumToString 5) = some (1 / 200) := by
    with_unfolding_all rfl
  refine ⟨?_, hval, by norm_num⟩
  simp only [walletStatus, he, hc, hu, hb, hbat, Option.getD_some, hval]
  norm_num

/-- Witness applying the C10 theorem at a concrete wallet snapshot. -/
theorem walletStatus_concatenation_witness :
    walletStatus ⟨false, true, false, none, some 0, some 5, some 1⟩ =
      WalletStatusId.insufficientFundsStatus :=
  (walletStatus_concatenation ⟨false, true, false, none, some 0, some 5, some 1⟩
    rfl rfl rfl rfl rfl).1

/-- C6: contributeP holds iff (stickyP or the publisher's exclude option
is not strictly true) and eligibleP and not blockedP; and stickyP
resolves the ledgerPayments site setting first, then the inverted
exclude option, then defaults to true. -/
theorem contributeP_spec :
    (∀ (s : LedgerState) (k : String),
      contributeP s k = true ↔
        ((stickyP s k = true ∨ (s.publishers k).optionExclude ≠ some true) ∧
          eligibleP s k = true ∧ blockedP s k = false)) ∧
    (∀ (s : LedgerState) (k : String) (b : Bool),
      s.ledgerPayments k = some b → stickyP s k = b) ∧
    (∀ (s : LedgerState) (k : String) (e : Bool),
      s.ledgerPayments k = none → (s.publishers k).optionExclude = some e →
      stickyP s k = !e) ∧
    (∀ (s : LedgerState) (k : String),
      s.ledgerPayments k = none → (s.publishers k).optionExclude = none →
      stickyP s k = true) := by
  refine ⟨?_, ?_, ?_, ?_⟩
  · intro s k
    simp [contributeP, Bool.and_eq_true, Bool.or_eq_true, Bool.not_eq_true', and_assoc]
  · intro s k b h
    simp [stickyP, h]
  · intro s k e h he
    simp [stickyP, h, he]
  · intro s k h he
    simp [stickyP, h, he]

/-- Witness applying the C6 theorem at the sample snapshot, discharging
the resolution-order hypotheses. -/
theorem contributeP_spec_witness :
    (contributeP sampleState "site" = true ↔
      ((stickyP sampleState "site" = true ∨
        (sampleState.publishers "site").optionExclude ≠ some true) ∧
        eligibleP sampleState "site" = true ∧ blockedP sampleState "site" = false)) ∧
    stickyP sampleState "site" = !false :=
  ⟨contributeP_spec.1 sampleState "site",
   contributeP_spec.2.2.1 sampleState "site" false rfl rfl⟩

/-- C7: eligibleP is monotone in visits and duration: raising a
publisher's duration and visit count while keeping its score table and
the synopsis thresholds fixed preserves eligibility. -/
theorem eligibleP_monotone (s : LedgerState) (k : String) (p' : PublisherRecord)
    (d d' v v' : ℚ)
    (hel : eligibleP s k = true)
    (hsc : p'.scores = (s.publishers k).scores)
    (hd : (s.publishers k).duration = some d) (hd' : p'.duration = some d')
    (hdd : d ≤ d')
    (hv : (s.publishers k).visits = some v) (hv' : p'.visits = some v')
    (hvv : v ≤ v') :
    eligibleP { s with publishers := fun j => if j = k then p' else s.publishers j } k
      = true := by
  simp only [eligibleP, Bool.and_eq_true] at hel ⊢
  obtain ⟨⟨h1, h2⟩, h3⟩ := hel
  simp only [if_pos rfl, if_true]
  refine ⟨⟨?_, ?_⟩, ?_⟩
  · have h1' := h1
    rw [← hsc] at h1'
    exact h1'
  · rw [hd] at h2
    rw [hd']
    cases hm : s.synopsis.minPublisherDuration with
    | none => rw [hm] at h2; simp [jsGe] at h2
    | some m =>
        rw [hm] at h2
        simp only [jsGe, decide_eq_true_eq] at h2 ⊢
        exact le_trans h2 hdd
  · rw [hv] at h3
    rw [hv']
    cases hm : s.synopsis.minPublisherVisits with
    | none => rw [hm] at h3; simp [jsGe] at h3
    | some m =>
        rw [hm] at h3
        simp only [jsGe, decide_eq_true_eq] at h3 ⊢
        exact le_trans h3 hvv

/-- Witness applying the C7 theorem: samplePublisher is eligible in
sampleState and sampleBigger raises its statistics. -/
theorem eligibleP_monotone_witness :
    eligibleP
      { sampleState with
        publishers := fun j => if j = "site" then sampleBigger else sampleState.publishers j }
      "site" = true :=
  eligibleP_monotone sampleState "site" sampleBigger 10 20 3 4
    (by decide) rfl rfl rfl (by norm_num) rfl rfl (by norm_num)

/-- C9 counterexample: a visibleP call does not cache the derived
showOnlyVerified option into the caller's snapshot: the write-back binds
a local variable only and the function returns just the boolean, so the
caller's state keeps the option unset. -/
theorem visibleP_cache_counterexample : ¬ claimC9Caches := by
  intro h
  have hc := h sampleStateUnset "site" rfl
  simp [visiblePFull, sampleStateUnset, sampleState] at hc

/-- C9 amended: when the showOnlyVerified option is unset, visibleP
derives it from the PAYMENTS_ALLOW_NON_VERIFIED setting and evaluates
the visibility rule on the locally cached snapshot, but the update is
confined to the call: the caller's state afterwards is the unchanged
input, and no evaluator call changes any part of the caller's state. -/
theorem visibleP_local_derivation (s : LedgerState) (k : String)
    (h : s.synopsis.showOnlyVerified = none) :
    visibleP s k = visibleP (setSynopsisShowOnlyVerified s s.settingAllowNonVerified) k ∧
    (visiblePFull s k).2 = s := by
  refine ⟨?_, rfl⟩
  simp [visibleP, setSynopsisShowOnlyVerified, h]

/-- Witness applying the C9 amended theorem at the sample snapshot with
the option unset. -/
theorem visibleP_local_derivation_witness :
    visibleP sampleStateUnset "site" =
      visibleP
        (setSynopsisShowOnlyVerified sampleStateUnset sampleStateUnset.settingAllowNonVerified)
        "site" ∧
    (visiblePFull sampleStateUnset "site").2 = sampleStateUnset :=
  visibleP_local_derivation sampleStateUnset "site" rfl

/-- C1: a tick whose reconcile stamp is present (nonzero) and less than
a day away, with sufficient funds, a present reconcile frequency and an
inactive review snooze, dispatches exactly the review-publishers pair of
actions: a single ReviewPublishers notification request, with the review
snooze timestamp set to reconcileStamp plus (reconcileFrequency minus 2)
days. -/
theorem tick_reviewPublishers (info : LedgerInfo) (st : NotifSettings) (now stamp f : ℚ)
    (hstamp : info.reconcileStamp = some stamp) (h0 : stamp ≠ 0)
    (hrem : stamp - now < day)
    (hfunds : sufficientBalanceToReconcile info = true)
    (hfreq : info.reconcileFrequency = some f)
    (hsnooze : st.reconcileSoonTimestamp = none ∨
      ∃ t, st.reconcileSoonTimestamp = some t ∧ (t = 0 ∨ t < now)) :
    showEnabledNotifications info st now =
      [LedgerEvent.setReconcileSoonTimestamp (some (stamp + (f - 2) * day)),
       LedgerEvent.showNotification NotifKind.reconciliation] ∧
    (showEnabledNotifications info st now).count
      (LedgerEvent.showNotification NotifKind.reconciliation) = 1 ∧
    ((showEnabledNotifications info st now).foldl applyEvent st).reconcileSoonTimestamp =
      some (stamp + (f - 2) * day) := by
  have hshow : shouldShowNotificationReviewPublishers st now = true := by
    rcases hsnooze with h | ⟨t, ht, h0t | hlt⟩
    · simp [shouldShowNotificationReviewPublishers, h]
    · simp [shouldShowNotificationReviewPublishers, ht, h0t]
    · simp [shouldShowNotificationReviewPublishers, ht, hlt]
  have hmain : showEnabledNotifications info st now =
      [LedgerEvent.setReconcileSoonTimestamp (some (stamp + (f - 2) * day)),
       LedgerEvent.showNotification NotifKind.reconciliation] := by
    simp [showEnabledNotifications, hstamp, h0, hrem, hfunds, hshow, hfreq,
      showReviewPublishers]
  refine ⟨hmain, ?_, ?_⟩
  · rw [hmain]
    simp [List.count_cons]
  · rw [hmain]
    simp [applyEvent]

/-- Witness applying the C1 theorem one millisecond before the sample
reconcile stamp with ample funds and no stored snooze. -/
theorem tick_reviewPublishers_witness :
    showEnabledNotifications sampleInfoFunded sampleSettings 999999 =
      [LedgerEvent.setReconcileSoonTimestamp (some (1000000 + (30 - 2) * day)),
       LedgerEvent.showNotification NotifKind.reconciliation] ∧
    (showEnabledNotifications sampleInfoFunded sampleSettings 999999).count
      (LedgerEvent.showNotification NotifKind.reconciliation) = 1 ∧
    ((showEnabledNotifications sampleInfoFunded sampleSettings 999999).foldl applyEvent
        sampleSettings).reconcileSoonTimestamp = some (1000000 + (30 - 2) * day) :=
  tick_reviewPublishers sampleInfoFunded sampleSettings 999999 1000000 30
    rfl (by norm_num) (by norm_num [day]) (by with_unfolding_all rfl) rfl (Or.inl rfl)

/-- C2: a tick whose reconcile stamp is present (nonzero) and less than
a day away, with insufficient funds and an inactive add-funds snooze,
dispatches exactly the add-funds pair of actions: a single AddFunds
notification request, with the add-funds snooze timestamp set to now
plus three days. -/
theorem tick_addFunds (info : LedgerInfo) (st : NotifSettings) (now stamp : ℚ)
    (hstamp : info.reconcileStamp = some stamp) (h0 : stamp ≠ 0)
    (hrem : stamp - now < day)
    (hfunds : sufficientBalanceToReconcile info = false)
    (hsnooze : st.addFundsTimestamp = none ∨
      ∃ t, st.addFundsTimestamp = some t ∧ (t = 0 ∨ t < now)) :
    showEnabledNotifications info st now =
      [LedgerEvent.setAddFundsTimestamp (now + 3 * day),
       LedgerEvent.showNotification NotifKind.addFunds] ∧
    (showEnabledNotifications info st now).count
      (LedgerEvent.showNotification NotifKind.addFunds) = 1 ∧
    ((showEnabledNotifications info st now).foldl applyEvent st).addFundsTimestamp =
      some (now + 3 * day) := by
  have hshow : shouldShowNotificationAddFunds st now = true := by
    rcases hsnooze with h | ⟨t, ht, h0t | hlt⟩
    · simp [shouldShowNotificationAddFunds, h]
    · simp [shouldShowNotificationAddFunds, ht, h0t]
    · simp [shouldShowNotificationAddFunds, ht, hlt]
  have hmain : showEnabledNotifications info st now =
      [LedgerEvent.setAddFundsTimestamp (now + 3 * day),
       LedgerEvent.showNotification NotifKind.addFunds] := by
    simp [showEnabledNotifications, hstamp, h0, hrem, hfunds, hshow, showAddFunds,
      nextAddFundsTime]
  refine ⟨hmain, ?_, ?_⟩
  · rw [hmain]
    simp [List.count_cons]
  · rw [hmain]
    simp [applyEvent]

/-- Witness applying the C2 theorem one millisecond before the sample
reconcile stamp with an empty balance and no stored snooze. -/
theorem tick_addFunds_witness :
    showEnabledNotifications sampleInfoBroke sampleSettings 999999 =
      [LedgerEvent.setAddFundsTimestamp (999999 + 3 * day),
       LedgerEvent.showNotification NotifKind.addFunds] ∧
    (showEnabledNotifications sampleInfoBroke sampleSettings 999999).count
      (LedgerEvent.showNotification NotifKind.addFunds) = 1 ∧
    ((showEnabledNotifications sampleInfoBroke sampleSettings 999999).foldl applyEvent
        sampleSettings).addFundsTimestamp = some (999999 + 3 * day) :=
  tick_addFunds sampleInfoBroke sampleSettings 999999 1000000
    rfl (by norm_num) (by norm_num [day]) (by with_unfolding_all rfl) (Or.inl rfl)

/-- Helper: when review publishers is snoozed the reconciliation-window
rule either stays silent or dispatches the add-funds pair. -/
theorem showEnabled_noReview (info : LedgerInfo) (st : NotifSettings) (now : ℚ)
    (hshow : shouldShowNotificationReviewPublishers st now = false) :
    showEnabledNotifications info st now = [] ∨
    showEnabledNotifications info st now = showAddFunds now := by
  unfold showEnabledNotifications
  cases info.reconcileStamp with
  | none => exact Or.inl rfl
  | some stamp =>
      simp only [hshow, Bool.and_false]
      split_ifs <;> first | contradiction | exact Or.inl rfl | exact Or.inr rfl

/-- Helper: when add funds is snoozed the reconciliation-window rule
either stays silent or dispatches a review-publishers pair. -/
theorem showEnabled_noAddFunds (info : LedgerInfo) (st : NotifSettings) (now : ℚ)
    (hshow : shouldShowNotificationAddFunds st now = false) :
    showEnabledNotifications info st now = [] ∨
    ∃ nt, showEnabledNotifications info st now = showReviewPublishers nt := by
  unfold showEnabledNotifications
  cases info.reconcileStamp with
  | none => exact Or.inl rfl
  | some stamp =>
      simp only [hshow, Bool.and_false]
      split_ifs <;> first | contradiction | exact Or.inl rfl | exact Or.inr ⟨_, rfl⟩

/-- Helper: one tick dispatches either the enabled-notification events
or nothing or the try-payments request. -/
theorem onInterval_cases (info : LedgerInfo) (st : NotifSettings) (fr dl now : ℚ) :
    onInterval info st fr dl now = showEnabledNotifications info st now ∨
    onInterval info st fr dl now = [] ∨
    onInterval info st fr dl now = [LedgerEvent.showNotification NotifKind.tryPayments] := by
  unfold onInterval showDisabledNotifications
  split_ifs <;> simp

/-- Helper: while the review snooze holds a positive timestamp not yet
reached, a tick dispatches no reconciliation notification and leaves the
review snooze unchanged. -/
theorem tick_review_frozen (info : LedgerInfo) (st : NotifSettings)
    (fr dl now T : ℚ) (hT : 0 < T) (hnow : now < T)
    (hset : st.reconcileSoonTimestamp = some T) :
    LedgerEvent.showNotification NotifKind.reconciliation ∉ onInterval info st fr dl now ∧
    ((onInterval info st fr dl now).foldl applyEvent st).reconcileSoonTimestamp = some T := by
  have hshow : shouldShowNotificationReviewPublishers st now = false := by
    simp [shouldShowNotificationReviewPublishers, hset, hT.ne', not_lt.mpr hnow.le]
  rcases onInterval_cases info st fr dl now with h | h | h
  · rcases showEnabled_noReview info st now hshow with he | he
    · rw [h, he]
      simp [hset]
    · rw [h, he]
      simp [showAddFunds, applyEvent, hset]
  · rw [h]
    simp [hset]
  · rw [h]
    simp [applyEvent, hset]

/-- Helper: while the add-funds snooze holds a positive timestamp not
yet reached, a tick dispatches no add-funds notification and leaves the
add-funds snooze unchanged. -/
theorem tick_addFunds_frozen (info : LedgerInfo) (st : NotifSettings)
    (fr dl now T : ℚ) (hT : 0 < T) (hnow : now < T)
    (hset : st.addFundsTimestamp = some T) :
    LedgerEvent.showNotification NotifKind.addFunds ∉ onInterval info st fr dl now ∧
    ((onInterval info st fr dl now).foldl applyEvent st).addFundsTimestamp = some T := by
  have hshow : shouldShowNotificationAddFunds st now = false := by
    simp [shouldShowNotificationAddFunds, hset, hT.ne', not_lt.mpr hnow.le]
  rcases onInterval_cases info st fr dl now with h | h | h
  · rcases showEnabled_noAddFunds info st now hshow with he | ⟨nt, he⟩
    · rw [h, he]
      simp [hset]
    · rw [h, he]
      simp [showReviewPublishers, applyEvent, hset]
  · rw [h]
    simp [hset]
  · rw [h]
    simp [applyEvent, hset]

/-- C4: each persisted-dedup notification kind fires at most once within
its own cool-down window: once its snooze timestamp holds a future
(positive) instant, no tick of any sequence occurring before that
instant dispatches that kind again. -/
theorem notif_cooldown (st : NotifSettings) (ticks : List TickInput) (T : ℚ) (hT : 0 < T) :
    (st.reconcileSoonTimestamp = some T → (∀ t ∈ ticks, t.now < T) →
      LedgerEvent.showNotification NotifKind.reconciliation ∉ (runTicks st ticks).2) ∧
    (st.addFundsTimestamp = some T → (∀ t ∈ ticks, t.now < T) →
      LedgerEvent.showNotification NotifKind.addFunds ∉ (runTicks st ticks).2) := by
  induction ticks generalizing st with
  | nil => simp [runTicks]
  | cons t ts ih =>
      constructor
      · intro hset hall
        have hfr := tick_review_frozen t.info st t.firstRunTimestamp t.delayTryPayments
          t.now T hT (hall t (by simp)) hset
        have htail := (ih ((onInterval t.info st t.firstRunTimestamp t.delayTryPayments
          t.now).foldl applyEvent st)).1 hfr.2 (fun u hu => hall u (by simp [hu]))
        simp only [runTicks, List.mem_append, not_or]
        exact ⟨hfr.1, htail⟩
      · intro hset hall
        have hfr := tick_addFunds_frozen t.info st t.firstRunTimestamp t.delayTryPayments
          t.now T hT (hall t (by simp)) hset
        have htail := (ih ((onInterval t.info st t.firstRunTimestamp t.delayTryPayments
          t.now).foldl applyEvent st)).2 hfr.2 (fun u hu => hall u (by simp [hu]))
        simp only [runTicks, List.mem_append, not_or]
        exact ⟨hfr.1, htail⟩

/-- Witness applying the C4 theorem: with both snoozes stored as 5000000
a tick at 999999 dispatches neither snoozed kind. -/
theorem notif_cooldown_witness :
    LedgerEvent.showNotification NotifKind.reconciliation ∉
      (runTicks sampleSnoozed [sampleTick]).2 ∧
    LedgerEvent.showNotification NotifKind.addFunds ∉
      (runTicks sampleSnoozed [sampleTick]).2 :=
  ⟨(notif_cooldown sampleSnoozed [sampleTick] 5000000 (by norm_num)).1 rfl
      (by intro t ht; simp only [List.mem_singleton] at ht; rw [ht]; norm_num [sampleTick]),
   (notif_cooldown sampleSnoozed [sampleTick] 5000000 (by norm_num)).2 rfl
      (by intro t ht; simp only [List.mem_singleton] at ht; rw [ht]; norm_num [sampleTick])⟩
